import Mathlib

/-!
Verification of `src/dotfiles_kaizen/main.py`.

Shallow embedding conventions:
* Python strings are `List Char`; Python `s.lower()` is `List.map Char.toLower`
  (ASCII case folding); `sub in s` is substring containment.
* Python slices `text[a:b]` are `(text.take b).drop a`; `str.find(sub, start)`
  and `str.index(sub)` are `findSubstrFrom` / `findSubstr` returning `Option Nat`.
* Python `dict.get(key, default)` on optional configuration keys is
  `Option.getD`; a JSON object is a structure whose optional keys are `Option`.
* Network calls are abstracted by passing their outcome (`Except`) as input;
  the actions a phase would perform against the issue tracker are reified as
  data (`ReportAction`).
-/

/-- Retry bound from `main.py` (`MAX_RETRIES = 3`). -/
def MAX_RETRIES : Nat := 3

/-- Base retry delay in seconds from `main.py` (`RETRY_DELAY = 2`). -/
def RETRY_DELAY : Nat := 2

/-- Dataclass `SearchResult` (title, url, content, score).  The Python
`score` is a float that the program only copies and never computes on, so it
is carried here as an opaque integer code. -/
structure SearchResult where
  title : List Char
  url : List Char
  content : List Char
  score : Int
deriving DecidableEq

/-- Dataclass `ResearchOutput`. -/
structure ResearchOutput where
  sources : List SearchResult
  summary : List Char
  search_query : List Char
deriving DecidableEq

/-- Dataclass `AnalysisOutput`. -/
structure AnalysisOutput where
  gap_analysis : List Char
  recommendations : List Char
  implementation_guide : List Char
  full_response : List Char
deriving DecidableEq

/-- The `search_hints` object of a domain.  `exclude_domains` and
`exclude_terms` are read with `dict.get(…, [])` in the code, hence `Option`. -/
structure SearchHints where
  primary_keywords : List (List Char)
  focus_areas : List (List Char)
  exclude_domains : Option (List (List Char))
  exclude_terms : Option (List (List Char))
deriving DecidableEq

/-- The `analysis_context` object of a domain (`current_version` is read with
a default, `priority_aspects` by direct indexing). -/
structure AnalysisContext where
  current_version : Option (List Char)
  priority_aspects : List (List Char)
deriving DecidableEq

/-- One configured domain object. -/
structure Domain where
  id : List Char
  name : List Char
  description : List Char
  target_files : List (List Char)
  search_hints : SearchHints
  analysis_context : AnalysisContext
deriving DecidableEq

/-- The `global_settings` object.  `analysis_temperature` (a float consumed
only by the completion API call) is not modelled; the two keys the verified
code paths read are kept, both optional because the code reads them with
`dict.get`. -/
structure GlobalSettings where
  max_search_results : Option Nat
  issue_labels : Option (List (List Char))
deriving DecidableEq

/-- The configuration document.  Both top-level keys are read with
`dict.get` (`config.get("domains", [])`, `config.get("global_settings", {})`),
hence `Option`. -/
structure Config where
  domains : Option (List Domain)
  global_settings : Option GlobalSettings
deriving DecidableEq

/-- The loop body of `get_domain_config`: scan the domain list and return the
first entry whose `id` equals the requested identifier. -/
def findDomainLoop : List Domain → List Char → Option Domain
  | [], _ => none
  | d :: rest, domain_id =>
    if d.id == domain_id then some d else findDomainLoop rest domain_id

/-- `get_domain_config(config, domain_id)` from `main.py` lines 52–57:
iterate over `config.get("domains", [])` and return the first matching
domain, else `None`. -/
def get_domain_config (config : Config) (domain_id : List Char) : Option Domain :=
  findDomainLoop (config.domains.getD []) domain_id

/-- Python `str.index` / `str.find`: index of the first occurrence of `pat`
in `hay`, scanning left to right. -/
def findSubstr : List Char → List Char → Option Nat
  | [], pat => if pat.isPrefixOf [] then some 0 else none
  | c :: t, pat =>
    if pat.isPrefixOf (c :: t) then some 0
    else (findSubstr t pat).map (· + 1)

/-- Python `str.find(pat, start)`: first occurrence of `pat` at or after
index `start`, as an absolute index. -/
def findSubstrFrom (text pat : List Char) (start : Nat) : Option Nat :=
  (findSubstr (text.drop start) pat).map (· + start)

/-- Python `str.strip()`: remove leading and trailing whitespace. -/
def pyStrip (l : List Char) : List Char :=
  ((l.dropWhile Char.isWhitespace).reverse.dropWhile Char.isWhitespace).reverse

/-- Python `sub in s` substring test, as a boolean. -/
def containsSub (hay pat : List Char) : Bool := (findSubstr hay pat).isSome

/-- Python `str.lower()` (ASCII case folding). -/
def lowerChars (l : List Char) : List Char := l.map Char.toLower

/-- The exclusion predicate inside `collect_trends` (lines 300–307): the
result is dropped when any lower-cased excluded term occurs in the
lower-cased title or the lower-cased content. -/
def resultExcluded (exclude_terms : List (List Char)) (r : SearchResult) : Bool :=
  (exclude_terms.map lowerChars).any fun term =>
    containsSub (lowerChars r.title) term || containsSub (lowerChars r.content) term

/-- The result-processing loop of `collect_trends` (lines 298–317): keep the
results not matched by `resultExcluded`, in order. -/
def collectFilter : List SearchResult → List (List Char) → List SearchResult
  | [], _ => []
  | r :: rest, exclude_terms =>
    if resultExcluded exclude_terms r then collectFilter rest exclude_terms
    else r :: collectFilter rest exclude_terms

/-- `_extract_section(text, section_name)` from `main.py` lines 483–498:
locate `"## " + section_name`, then slice until the next `"\n## "` (or the
end of the text) and strip; a missing header (Python `ValueError` from
`str.index`) yields the empty string. -/
def extractSection (text section_name : List Char) : List Char :=
  match findSubstr text ("## ".data ++ section_name) with
  | none => []
  | some start =>
    match findSubstrFrom text "\n## ".data (start + ("## ".data ++ section_name).length) with
    | none => pyStrip (text.drop (start + ("## ".data ++ section_name).length))
    | some next_section_start =>
      pyStrip ((text.take next_section_start).drop (start + ("## ".data ++ section_name).length))

/-- One item of `_format_sources` (lines 468–477): content truncated to 200
characters, with a trailing ellipsis exactly when the original content was
longer than 200 characters. -/
def formatSourceItem (s : SearchResult) : List Char :=
  "- ".data ++ s.title ++ ": ".data ++
    (if 200 < s.content.length then s.content.take 200 ++ "...".data
     else s.content.take 200)

/-- `_format_sources(sources)`: the first five sources, one formatted line
each, joined by newlines. -/
def formatSources (sources : List SearchResult) : List Char :=
  List.intercalate "\n".data ((sources.take 5).map formatSourceItem)

/-- `_format_sources_list(sources)` (lines 479–481): the first five sources
as markdown links, joined by newlines. -/
def formatSourcesList (sources : List SearchResult) : List Char :=
  List.intercalate "\n".data
    ((sources.take 5).map fun s => "- [".data ++ s.title ++ "](".data ++ s.url ++ ")".data)

/-- Outcome of one of the retried client calls, seen from the caller:
`ok` a parsed response, `raised` the final transport error re-raised by the
last attempt, `exhausted` the unreachable post-loop raise. -/
inductive RetryResult (E A : Type) where
  | ok : A → RetryResult E A
  | raised : E → RetryResult E A
  | exhausted : RetryResult E A
deriving DecidableEq

/-- The retry loop shared verbatim by `TavilyClient.search` (lines 84–94),
`AnthropicClient.generate_response` (lines 122–134) and
`GitHubClient.create_issue` (lines 174–183).  `op attempt` is the outcome of
the attempt-th request; the second component collects the `time.sleep`
durations performed, in order. -/
def retryGo {E A : Type} (op : Nat → Except E A) : List Nat → RetryResult E A × List Nat
  | [] => (.exhausted, [])
  | attempt :: rest =>
    match op attempt with
    | .ok a => (.ok a, [])
    | .error e =>
      if attempt = MAX_RETRIES - 1 then (.raised e, [])
      else ((retryGo op rest).1, RETRY_DELAY * (attempt + 1) :: (retryGo op rest).2)

/-- `for attempt in range(MAX_RETRIES): …` — the whole retry wrapper. -/
def runWithRetry {E A : Type} (op : Nat → Except E A) : RetryResult E A × List Nat :=
  retryGo op (List.range MAX_RETRIES)

/-- A tracker issue as consumed by the reporting phase: only its `number`
field is read. -/
structure GHIssue where
  number : Nat
deriving DecidableEq

/-- Parsed body of the issue-search response (`total_count`, `items`). -/
structure SearchData where
  total_count : Nat
  items : List GHIssue
deriving DecidableEq

/-- A Python exception escaping uncaught (here only the `IndexError` that
`data["items"][0]` would raise on an empty list). -/
inductive PyRaise where
  | indexErr : PyRaise
deriving DecidableEq

/-- `GitHubClient.find_existing_issue(title_prefix)` (lines 187–213).  The
outbound query built from `title_pre` is answered by the environment; its
outcome is the `resp` argument (`Except.error` = `requests.RequestException`
caught by the handler).  A successful response with a positive
`total_count` yields `items[0]`. -/
def find_existing_issue (title_pre : List Char) (resp : Except Unit SearchData) :
    Except PyRaise (Option GHIssue) :=
  match resp with
  | .error _ => .ok none
  | .ok data =>
    if 0 < data.total_count then
      match data.items with
      | [] => .error .indexErr
      | first :: _ => .ok (some first)
    else .ok none

/-- The issue body assembled by `report_findings` (lines 419–436).
`nowStr` stands for the formatted `datetime.now(timezone.utc)` timestamp. -/
def issueBody (domain : Domain) (nowStr : List Char)
    (research : ResearchOutput) (analysis : AnalysisOutput) : List Char :=
  "\n## 🔍 Analysis Overview\n- **Domain**: ".data ++ domain.name ++
    "\n- **Date**: ".data ++ nowStr ++
    "\n- **Search Query**: `".data ++ research.search_query ++
    "`\n\n## 📊 Research Summary\n".data ++ research.summary ++
    "\n\n## 💡 Analysis & Recommendations\n".data ++ analysis.full_response ++
    "\n\n## 📚 Top Sources\n".data ++ formatSourcesList research.sources ++
    "\n\n---\n*This issue was automatically generated by the Dotfiles Kaizen Workflow.*\n".data

/-- The update comment assembled by `report_findings` (lines 447–455). -/
def commentBody (today : List Char)
    (research : ResearchOutput) (analysis : AnalysisOutput) : List Char :=
  "\n### Update: ".data ++ today ++
    "\n\n**Research Summary**:\n".data ++ research.summary ++
    "\n\n**New Recommendations**:\n".data ++ analysis.full_response ++ "\n".data

/-- The single issue-tracker action performed by the reporting phase. -/
inductive ReportAction where
  | createdIssue (title body : List Char) (labels : List (List Char))
  | addedComment (issueNumber : Nat) (body : List Char)
deriving DecidableEq

/-- `DotfilesKaizen.report_findings` (lines 407–466), with the outcome of the
underlying issue-search request passed in as `searchResp` and the performed
tracker action reified.  `today` is `%Y-%m-%d` of the current UTC time and
`nowStr` its long form. -/
def report_findings (config : Config) (domain : Domain) (today nowStr : List Char)
    (research : ResearchOutput) (analysis : AnalysisOutput)
    (searchResp : Except Unit SearchData) : Except PyRaise ReportAction :=
  match find_existing_issue ("[Dotfiles Kaizen] ".data ++ domain.name) searchResp with
  | .error e => .error e
  | .ok (some existing) =>
    .ok (.addedComment existing.number (commentBody today research analysis))
  | .ok none =>
    .ok (.createdIssue
      ("[Dotfiles Kaizen] ".data ++ domain.name ++ " - ".data ++ today)
      (issueBody domain nowStr research analysis)
      (((config.global_settings.getD ⟨none, none⟩).issue_labels.getD
          ["dotfiles-kaizen".data]) ++ [domain.id]))

/-- Heap of Python list objects, for stating the frame property of the label
computation: `cells` maps a reference (its index) to the list it denotes. -/
structure PyListStore where
  cells : List (List (List Char))
deriving DecidableEq

/-- Dereference a Python list reference. -/
def PyListStore.readRef (st : PyListStore) (r : Nat) : List (List Char) :=
  (st.cells[r]?).getD []

/-- Allocate a fresh Python list object holding `v`. -/
def PyListStore.alloc (st : PyListStore) (v : List (List Char)) : PyListStore × Nat :=
  (⟨st.cells ++ [v]⟩, st.cells.length)

/-- Overwrite the list object behind reference `r`. -/
def PyListStore.writeRef (st : PyListStore) (r : Nat) (v : List (List Char)) : PyListStore :=
  ⟨st.cells.set r v⟩

/-- The label computation of `report_findings` (lines 459–461) under Python
reference semantics: `labels = list(issue_labels)` allocates a fresh list
copying the configured one, then `labels.append(domain["id"])` mutates only
the fresh list in place. -/
def reportLabelsStep (st : PyListStore) (issueLabelsRef : Nat) (domainId : List Char) :
    PyListStore × Nat :=
  let copied := st.readRef issueLabelsRef
  let allocated := st.alloc copied
  (allocated.1.writeRef allocated.2 (allocated.1.readRef allocated.2 ++ [domainId]),
   allocated.2)

/-- Sample fixtures used by the concrete witnesses. -/
def sampleHints : SearchHints := ⟨[], [], none, none⟩

def sampleCtx : AnalysisContext := ⟨none, []⟩

def sampleDomain : Domain :=
  ⟨"docs-skill".data, "Docs Skill".data, "desc".data, [], sampleHints, sampleCtx⟩

def sampleConfig : Config :=
  ⟨some [sampleDomain], some ⟨some 10, some ["dotfiles-kaizen".data]⟩⟩

def sampleResearch : ResearchOutput := ⟨[], "sum".data, "q".data⟩

def sampleAnalysis : AnalysisOutput := ⟨[], [], [], "full".data⟩

/-! ### Substring-search lemmas -/

lemma isPrefixOf_iff_pre (l₁ l₂ : List Char) : l₁.isPrefixOf l₂ = true ↔ l₁ <+: l₂ := by
  induction l₁ generalizing l₂ with
  | nil => simp [List.isPrefixOf]
  | cons a as ih =>
    cases l₂ with
    | nil => simp [List.isPrefixOf]
    | cons b bs =>
      simp only [List.isPrefixOf, Bool.and_eq_true, beq_iff_eq, ih]
      constructor
      · rintro ⟨rfl, t, rfl⟩
        exact ⟨t, rfl⟩
      · rintro ⟨t, ht⟩
        simp only [List.cons_append, List.cons.injEq] at ht
        exact ⟨ht.1, t, ht.2⟩

lemma seg_of_pre {l₁ l₂ : List Char} (h : l₁ <+: l₂) : l₁ <:+: l₂ := by
  obtain ⟨t, ht⟩ := h
  exact ⟨[], t, by simpa using ht⟩

lemma seg_of_suf {l₁ l₂ : List Char} (h : l₁ <:+ l₂) : l₁ <:+: l₂ := by
  obtain ⟨s, hs⟩ := h
  exact ⟨s, [], by simpa using hs⟩

lemma seg_cons {l₁ l₂ : List Char} (c : Char) (h : l₁ <:+: l₂) : l₁ <:+: c :: l₂ := by
  obtain ⟨s, t, hst⟩ := h
  exact ⟨c :: s, t, by simp [hst]⟩

lemma seg_trans {l₁ l₂ l₃ : List Char} (h₁ : l₁ <:+: l₂) (h₂ : l₂ <:+: l₃) : l₁ <:+: l₃ :=
  h₁.trans h₂

lemma self_append_isPrefixOf (l ext : List Char) : l.isPrefixOf (l ++ ext) = true := by
  induction l with
  | nil => simp [List.isPrefixOf]
  | cons a as ih => simp [List.isPrefixOf, ih]

lemma findSubstr_self_append (pat ext : List Char) : findSubstr (pat ++ ext) pat = some 0 := by
  have h := self_append_isPrefixOf pat ext
  cases hpe : pat ++ ext with
  | nil =>
    have hp : pat = [] := by
      cases pat with
      | nil => rfl
      | cons a as => simp at hpe
    subst hp
    rfl
  | cons c t =>
    rw [hpe] at h
    simp [findSubstr, h]

lemma findSubstr_eq_none {hay pat : List Char} (h : ¬ pat <:+: hay) : findSubstr hay pat = none := by
  induction hay with
  | nil =>
    cases pat with
    | nil => exact absurd ⟨[], [], rfl⟩ h
    | cons p ps => simp [findSubstr, List.isPrefixOf]
  | cons c t ih =>
    have h2 : ¬ pat <:+: t := fun hseg => h (seg_cons c hseg)
    have h1 : pat.isPrefixOf (c :: t) = false := by
      cases hb : pat.isPrefixOf (c :: t) with
      | false => rfl
      | true => exact absurd (seg_of_pre ((isPrefixOf_iff_pre pat (c :: t)).mp hb)) h
    simp [findSubstr, h1, ih h2]

lemma findSubstr_isSome_of_seg {hay pat : List Char} (h : pat <:+: hay) :
    (findSubstr hay pat).isSome = true := by
  induction hay with
  | nil =>
    obtain ⟨s, t, hst⟩ := h
    have hp : pat = [] := by
      cases s <;> cases pat <;> simp_all
    subst hp
    rfl
  | cons c t ih =>
    cases hb : pat.isPrefixOf (c :: t) with
    | true => simp [findSubstr, hb]
    | false =>
      obtain ⟨s, u, hsu⟩ := h
      cases s with
      | nil =>
        have hp : pat.isPrefixOf (c :: t) = true :=
          (isPrefixOf_iff_pre pat (c :: t)).mpr ⟨u, by simpa using hsu⟩
        rw [hb] at hp
        cases hp
      | cons c' s' =>
        have hc : c' = c ∧ s' ++ pat ++ u = t := by simpa using hsu
        have hsome := ih ⟨s', u, hc.2⟩
        rcases hfind : findSubstr t pat with _ | i
        · rw [hfind] at hsome
          simp at hsome
        · simp [findSubstr, hb, hfind]

lemma containsSub_iff (hay pat : List Char) : containsSub hay pat = true ↔ pat <:+: hay := by
  constructor
  · intro hc
    by_contra hs
    rw [containsSub, findSubstr_eq_none hs] at hc
    simp at hc
  · intro hs
    exact findSubstr_isSome_of_seg hs

lemma pre_of_append_left {l a b : List Char} (h : l <+: a ++ b) (hl : l.length ≤ a.length) :
    l <+: a := by
  obtain ⟨t, ht⟩ := h
  have h1 : l = (a ++ b).take l.length := by
    rw [← ht]
    exact (List.take_left l t).symm
  rw [List.take_append_of_le_length hl] at h1
  rw [h1]
  exact List.take_prefix l.length a

lemma nlHeader_eq : "\n## ".data = '\n' :: '#' :: '#' :: ' ' :: [] := rfl

lemma noStraddle (c : Char) (m z : List Char) (h : ¬ "\n## ".data <:+: (c :: m)) :
    "\n## ".data.isPrefixOf (c :: (m ++ ("\n## ".data ++ z))) = false := by
  cases hb : "\n## ".data.isPrefixOf (c :: (m ++ ("\n## ".data ++ z))) with
  | false => rfl
  | true =>
    exfalso
    have hpre : "\n## ".data <+: (c :: (m ++ ("\n## ".data ++ z))) :=
      (isPrefixOf_iff_pre _ _).mp hb
    rcases m with _ | ⟨d, _ | ⟨e, _ | ⟨f, m3⟩⟩⟩
    · obtain ⟨t, ht⟩ := hpre
      rw [nlHeader_eq] at ht
      simp only [List.nil_append, List.cons_append, List.cons.injEq] at ht
      exact absurd ht.2.1 (by decide)
    · obtain ⟨t, ht⟩ := hpre
      rw [nlHeader_eq] at ht
      simp only [List.nil_append, List.cons_append, List.cons.injEq] at ht
      exact absurd ht.2.2.1 (by decide)
    · obtain ⟨t, ht⟩ := hpre
      rw [nlHeader_eq] at ht
      simp only [List.nil_append, List.cons_append, List.cons.injEq] at ht
      exact absurd ht.2.2.2.1 (by decide)
    · have hlen : ("\n## ".data).length ≤ (c :: d :: e :: f :: m3).length := by
        rw [nlHeader_eq]
        simp
      have hpre2 : "\n## ".data <+: (c :: d :: e :: f :: m3) :=
        pre_of_append_left (a := c :: d :: e :: f :: m3) (b := "\n## ".data ++ z)
          (by simpa using hpre) hlen
      exact h (seg_of_pre hpre2)

lemma findSubstr_boundary (mid z : List Char) (h : ¬ "\n## ".data <:+: mid) :
    findSubstr (mid ++ ("\n## ".data ++ z)) "\n## ".data = some mid.length := by
  induction mid with
  | nil => simpa using findSubstr_self_append "\n## ".data z
  | cons c m ih =>
    have h2 : ¬ "\n## ".data <:+: m := fun hs => h (seg_cons c hs)
    have hb : "\n## ".data.isPrefixOf (c :: (m ++ ("\n## ".data ++ z))) = false :=
      noStraddle c m z h
    have hrec := ih h2
    show findSubstr (c :: (m ++ ("\n## ".data ++ z))) "\n## ".data = some (m.length + 1)
    rw [show findSubstr (c :: (m ++ ("\n## ".data ++ z))) "\n## ".data
        = if "\n## ".data.isPrefixOf (c :: (m ++ ("\n## ".data ++ z))) then some 0
          else (findSubstr (m ++ ("\n## ".data ++ z)) "\n## ".data).map (· + 1) from rfl]
    rw [hb, hrec]
    rfl

lemma pyStrip_seg (l : List Char) : pyStrip l <:+: l := by
  have h1 : l.dropWhile Char.isWhitespace <:+ l := List.dropWhile_suffix Char.isWhitespace
  have h2 : ((l.dropWhile Char.isWhitespace).reverse.dropWhile Char.isWhitespace).reverse
      <+: l.dropWhile Char.isWhitespace := by
    have h3 := List.dropWhile_suffix (l := (l.dropWhile Char.isWhitespace).reverse)
      Char.isWhitespace
    have h4 := List.reverse_prefix.mpr h3
    simpa using h4
  exact seg_trans (seg_of_pre h2) (seg_of_suf h1)

/-! ### Domain lookup (C6) -/

lemma findDomainLoop_spec (ds : List Domain) (i : List Char) :
    (∀ d, findDomainLoop ds i = some d → d ∈ ds ∧ d.id = i)
  ∧ (findDomainLoop ds i = none ↔ ∀ d ∈ ds, d.id ≠ i) := by
  induction ds with
  | nil => simp [findDomainLoop]
  | cons d rest ih =>
    by_cases h : d.id = i
    · have hstep : findDomainLoop (d :: rest) i = some d := by
        simp [findDomainLoop, h]
      constructor
      · intro d' hd'
        rw [hstep] at hd'
        obtain rfl : d = d' := by injection hd'
        exact ⟨List.mem_cons_self d rest, h⟩
      · rw [hstep]
        constructor
        · intro hc
          simp at hc
        · intro hall
          exact absurd h (hall d (List.mem_cons_self d rest))
    · have hstep : findDomainLoop (d :: rest) i = findDomainLoop rest i := by
        simp [findDomainLoop, h]
      constructor
      · intro d' hd'
        rw [hstep] at hd'
        obtain ⟨hm, hid⟩ := ih.1 d' hd'
        exact ⟨List.mem_cons_of_mem d hm, hid⟩
      · rw [hstep, ih.2]
        constructor
        · intro hall d' hmem
          rcases List.mem_cons.mp hmem with rfl | hm
          · exact h
          · exact hall d' hm
        · intro hall d' hm
          exact hall d' (List.mem_cons_of_mem d hm)

/-- C6: domain lookup returns the configuration object of a domain whose id
equals the identifier when one is present (a member of the configured list),
returns `none` exactly when no configured domain matches, and — being a total
function — never raises, in particular when the configuration has no domains
list at all. -/
theorem c6_domain_lookup (config : Config) (domain_id : List Char) :
    (∀ d, get_domain_config config domain_id = some d →
        d ∈ config.domains.getD [] ∧ d.id = domain_id)
  ∧ (get_domain_config config domain_id = none ↔
        ∀ d ∈ config.domains.getD [], d.id ≠ domain_id)
  ∧ (config.domains = none → get_domain_config config domain_id = none) := by
  refine ⟨(findDomainLoop_spec _ _).1, (findDomainLoop_spec _ _).2, ?_⟩
  intro h
  simp only [get_domain_config, h]
  rfl

/-- Witness for C6 at concrete inputs. -/
theorem c6_domain_lookup_witness :
    (sampleDomain ∈ sampleConfig.domains.getD [] ∧ sampleDomain.id = "docs-skill".data)
  ∧ get_domain_config ⟨none, none⟩ "x".data = none :=
  ⟨(c6_domain_lookup sampleConfig "docs-skill".data).1 sampleDomain rfl,
   (c6_domain_lookup ⟨none, none⟩ "x".data).2.2 rfl⟩

/-! ### Source formatting (C8, C10) -/

/-- C8: in the prompt formatting, a source whose content exceeds 200
characters is rendered as its first 200 characters followed by an ellipsis,
and a source whose content is shorter than 200 characters is rendered with
its content unmodified; the source list renders its first five items joined
by newlines. -/
theorem c8_source_truncation (s : SearchResult) :
    (200 < s.content.length →
      formatSourceItem s
        = "- ".data ++ s.title ++ ": ".data ++ (s.content.take 200 ++ "...".data))
  ∧ (s.content.length < 200 →
      formatSourceItem s = "- ".data ++ s.title ++ ": ".data ++ s.content)
  ∧ (∀ sources, formatSources sources
      = List.intercalate "\n".data ((sources.take 5).map formatSourceItem)) := by
  refine ⟨fun h => ?_, fun h => ?_, fun sources => rfl⟩
  · simp [formatSourceItem, h]
  · have h1 : ¬ 200 < s.content.length := by omega
    simp [formatSourceItem, h1, List.take_of_length_le (by omega : s.content.length ≤ 200)]

/-- Witness for C8 at concrete inputs (201-character and 2-character content). -/
theorem c8_source_truncation_witness :
    (200 < (List.replicate 201 'a').length
      ∧ formatSourceItem ⟨"T".data, "u".data, List.replicate 201 'a', 0⟩
          = "- ".data ++ "T".data ++ ": ".data
              ++ ((List.replicate 201 'a').take 200 ++ "...".data))
  ∧ (("hi".data).length < 200
      ∧ formatSourceItem ⟨"T".data, "u".data, "hi".data, 0⟩
          = "- ".data ++ "T".data ++ ": ".data ++ "hi".data) :=
  ⟨⟨by rw [List.length_replicate]; norm_num,
    (c8_source_truncation ⟨"T".data, "u".data, List.replicate 201 'a', 0⟩).1
      (by rw [List.length_replicate]; norm_num)⟩,
   ⟨by decide, (c8_source_truncation ⟨"T".data, "u".data, "hi".data, 0⟩).2.1 (by decide)⟩⟩

/-- C10: a source whose content is exactly 200 characters long is rendered
unmodified, with no trailing ellipsis; the ellipsis requires a length
strictly greater than 200. -/
theorem c10_exact_200_content_unmodified (s : SearchResult) (h : s.content.length = 200) :
    formatSourceItem s = "- ".data ++ s.title ++ ": ".data ++ s.content := by
  have h1 : ¬ 200 < s.content.length := by omega
  simp [formatSourceItem, h1, List.take_of_length_le (by omega : s.content.length ≤ 200)]

/-- Witness for C10 at a concrete 200-character content. -/
theorem c10_exact_200_content_unmodified_witness :
    (List.replicate 200 'a').length = 200
  ∧ formatSourceItem ⟨"T".data, "u".data, List.replicate 200 'a', 0⟩
      = "- ".data ++ "T".data ++ ": ".data ++ List.replicate 200 'a' :=
  ⟨List.length_replicate 200 'a',
   c10_exact_200_content_unmodified ⟨"T".data, "u".data, List.replicate 200 'a', 0⟩
     (List.length_replicate 200 'a')⟩

/-! ### Retry wrapper (C4) -/

/-- C4: the shared retry loop performs at most `MAX_RETRIES = 3` attempts;
before the n-th retry it sleeps `RETRY_DELAY * n` seconds (linear backoff);
when every attempt fails it re-raises the final attempt's error unmodified;
when an attempt succeeds its value is returned and no further delay occurs. -/
theorem c4_retry_linear_backoff {E A : Type} (op : Nat → Except E A) :
    (∀ e0 e1 e2, op 0 = .error e0 → op 1 = .error e1 → op 2 = .error e2 →
      runWithRetry op = (.raised e2, [RETRY_DELAY * 1, RETRY_DELAY * 2]))
  ∧ (∀ a, op 0 = .ok a → runWithRetry op = (.ok a, []))
  ∧ (∀ e0 a, op 0 = .error e0 → op 1 = .ok a →
      runWithRetry op = (.ok a, [RETRY_DELAY * 1]))
  ∧ (∀ e0 e1 a, op 0 = .error e0 → op 1 = .error e1 → op 2 = .ok a →
      runWithRetry op = (.ok a, [RETRY_DELAY * 1, RETRY_DELAY * 2])) := by
  have hr : List.range MAX_RETRIES = [0, 1, 2] := rfl
  refine ⟨?_, ?_, ?_, ?_⟩
  · intro e0 e1 e2 h0 h1 h2
    simp [runWithRetry, hr, retryGo, h0, h1, h2, MAX_RETRIES, RETRY_DELAY]
  · intro a h0
    simp [runWithRetry, hr, retryGo, h0]
  · intro e0 a h0 h1
    simp [runWithRetry, hr, retryGo, h0, h1, MAX_RETRIES, RETRY_DELAY]
  · intro e0 e1 a h0 h1 h2
    simp [runWithRetry, hr, retryGo, h0, h1, h2, MAX_RETRIES, RETRY_DELAY]

/-- Witness for C4: an operation failing every attempt, and one succeeding
immediately. -/
theorem c4_retry_linear_backoff_witness :
    runWithRetry (fun n => (Except.error n : Except Nat Nat)) = (.raised 2, [2, 4])
  ∧ runWithRetry (fun _ => (Except.ok 7 : Except Nat Nat)) = (.ok 7, []) :=
  ⟨(c4_retry_linear_backoff (fun n => Except.error n)).1 0 1 2 rfl rfl rfl,
   (c4_retry_linear_backoff (fun _ => Except.ok 7)).2.1 7 rfl⟩

/-! ### Issue search (C5) -/

/-- C5: for every title prefix and every outcome of the underlying
issue-search request — a failure of the request itself, or a success whose
`total_count` matches its item list — `find_existing_issue` returns normally
(no exception escapes): the first matching issue when one exists, `none`
when there is no match, and `none` when the request failed. -/
theorem c5_find_existing_never_raises (title_pre : List Char) (resp : Except Unit SearchData) :
    (∀ e, resp = .error e → find_existing_issue title_pre resp = .ok none)
  ∧ (∀ data, resp = .ok data → data.total_count = data.items.length →
      find_existing_issue title_pre resp = .ok data.items.head?) := by
  constructor
  · rintro e rfl
    rfl
  · rintro data rfl hcount
    rcases hitems : data.items with _ | ⟨first, rest⟩
    · have h0 : data.total_count = 0 := by rw [hcount, hitems]; rfl
      simp [find_existing_issue, h0, hitems]
    · have hpos : 0 < data.total_count := by rw [hcount, hitems]; simp
      simp [find_existing_issue, hpos, hitems]

/-- Witness for C5: a failed search request and a one-match response. -/
theorem c5_find_existing_never_raises_witness :
    find_existing_issue "[Dotfiles Kaizen] X".data (.error ()) = .ok none
  ∧ find_existing_issue "[Dotfiles Kaizen] X".data (.ok ⟨1, [⟨5⟩]⟩) = .ok (some ⟨5⟩) :=
  ⟨(c5_find_existing_never_raises "[Dotfiles Kaizen] X".data (.error ())).1 () rfl,
   (c5_find_existing_never_raises "[Dotfiles Kaizen] X".data (.ok ⟨1, [⟨5⟩]⟩)).2 ⟨1, [⟨5⟩]⟩ rfl rfl⟩

/-! ### Collect-phase post-filter (C2) -/

/-- C2: the collect-phase loop is exactly a filter: it removes precisely the
results whose lower-cased title or content contains some lower-cased
excluded term, keeps all the others, and the kept results form a sublist of
the input (original order preserved).  The boolean exclusion test agrees
with case-insensitive substring containment. -/
theorem c2_post_filter (results : List SearchResult) (terms : List (List Char)) :
    collectFilter results terms = results.filter (fun r => ! resultExcluded terms r)
  ∧ (collectFilter results terms).Sublist results
  ∧ (∀ r, resultExcluded terms r = true ↔
      ∃ t ∈ terms,
        lowerChars t <:+: lowerChars r.title ∨ lowerChars t <:+: lowerChars r.content) := by
  have hfilter : collectFilter results terms
      = results.filter (fun r => ! resultExcluded terms r) := by
    induction results with
    | nil => rfl
    | cons r rest ih =>
      by_cases h : resultExcluded terms r
      · simp [collectFilter, h, List.filter_cons, ih]
      · simp [collectFilter, h, List.filter_cons, ih]
  refine ⟨hfilter, ?_, ?_⟩
  · rw [hfilter]
    exact List.filter_sublist results
  · intro r
    simp only [resultExcluded, List.any_eq_true, List.mem_map, Bool.or_eq_true, containsSub_iff]
    constructor
    · rintro ⟨term, ⟨t, ht, rfl⟩, hc⟩
      exact ⟨t, ht, hc⟩
    · rintro ⟨t, ht, hc⟩
      exact ⟨lowerChars t, ⟨t, ht, rfl⟩, hc⟩

/-! ### Section extraction (C7, C3) -/

/-- C7: when the text does not contain the requested section's second-level
header, section extraction returns the empty string (the Python
`ValueError` is caught; no error escapes). -/
theorem c7_extract_missing_header (text section_name : List Char)
    (h : ¬ ("## ".data ++ section_name) <:+: text) :
    extractSection text section_name = [] := by
  have h1 : findSubstr text ("## ".data ++ section_name) = none := findSubstr_eq_none h
  unfold extractSection
  rw [h1]

/-- Witness for C7 at a concrete header-free text. -/
theorem c7_extract_missing_header_witness :
    (¬ ("## ".data ++ "A".data) <:+: "hello".data)
  ∧ extractSection "hello".data "A".data = [] :=
  ⟨by decide, c7_extract_missing_header "hello".data "A".data (by decide)⟩

/-- C3 counterexample: on the text `"## A\nbody ## B more\n## B\nend"` —
which contains the header line `"## A"` followed later by the second-level
header `"## B"` — the extracted section does contain the substring
`"## B"` (from the body line), and extraction is not idempotent: applying
it again to its own output yields a different (empty) string. -/
theorem c3_counterexample :
    ("## A".data <+: "## A\nbody ## B more\n## B\nend".data)
  ∧ ("\n## B\n".data <:+: "## A\nbody ## B more\n## B\nend".data)
  ∧ ("## B".data <:+: extractSection "## A\nbody ## B more\n## B\nend".data "A".data)
  ∧ extractSection (extractSection "## A\nbody ## B more\n## B\nend".data "A".data) "A".data
      ≠ extractSection "## A\nbody ## B more\n## B\nend".data "A".data := by
  decide

/-- C3 (amended): for markdown text of the shape
`"## " + name + body + "\n## " + name2 + rest` where the body contains no
occurrence of `"\n## "`, extracting `name` returns exactly the body trimmed
of surrounding whitespace, and the returned string never contains the
substring `"\n## "` (hence no second-level header line). -/
theorem c3_extract_between (name nm2 mid rest : List Char)
    (hmid : ¬ "\n## ".data <:+: mid) :
    extractSection (("## ".data ++ name) ++ (mid ++ ("\n## ".data ++ (nm2 ++ rest)))) name
      = pyStrip mid
  ∧ ¬ "\n## ".data <:+: pyStrip mid := by
  constructor
  · have h1 : findSubstr (("## ".data ++ name) ++ (mid ++ ("\n## ".data ++ (nm2 ++ rest))))
        ("## ".data ++ name) = some 0 := findSubstr_self_append _ _
    have hdrop : (("## ".data ++ name) ++ (mid ++ ("\n## ".data ++ (nm2 ++ rest)))).drop
        (0 + ("## ".data ++ name).length) = mid ++ ("\n## ".data ++ (nm2 ++ rest)) := by
      rw [Nat.zero_add]
      exact List.drop_left _ _
    have h2 : findSubstrFrom (("## ".data ++ name) ++ (mid ++ ("\n## ".data ++ (nm2 ++ rest))))
        "\n## ".data (0 + ("## ".data ++ name).length)
        = some (mid.length + (0 + ("## ".data ++ name).length)) := by
      rw [findSubstrFrom, hdrop, findSubstr_boundary mid (nm2 ++ rest) hmid]
      rfl
    have hslice : ((("## ".data ++ name) ++ (mid ++ ("\n## ".data ++ (nm2 ++ rest)))).take
          (mid.length + (0 + ("## ".data ++ name).length))).drop
          (0 + ("## ".data ++ name).length) = mid := by
      rw [Nat.zero_add, Nat.add_comm mid.length, List.take_append, List.take_left,
        List.drop_left]
    simp only [extractSection, h1, h2]
    rw [hslice]
  · intro hseg
    exact hmid (seg_trans hseg (pyStrip_seg mid))

/-- Witness for the amended C3 at a concrete well-formed text. -/
theorem c3_extract_between_witness :
    (¬ "\n## ".data <:+: "\n hello \n".data)
  ∧ (extractSection (("## ".data ++ "A".data)
        ++ ("\n hello \n".data ++ ("\n## ".data ++ ("B".data ++ "\nend".data)))) "A".data
      = pyStrip "\n hello \n".data
    ∧ ¬ "\n## ".data <:+: pyStrip "\n hello \n".data) :=
  ⟨by decide,
   c3_extract_between "A".data "B".data "\n hello \n".data "\nend".data (by decide)⟩

/-! ### Report phase (C1, C9) -/

/-- C1: when the issue search succeeds with zero matches, the report phase
creates a new issue titled `"[Dotfiles Kaizen] <name> - <today>"` with
labels equal to the configured global label list with the domain identifier
appended, and posts no comment; when the search returns a match, it adds a
comment to that issue's number and creates no issue. -/
theorem c1_report_find_or_create (config : Config) (domain : Domain)
    (today nowStr : List Char) (research : ResearchOutput) (analysis : AnalysisOutput) :
    (∀ gs ls items, config.global_settings = some gs → gs.issue_labels = some ls →
      report_findings config domain today nowStr research analysis (.ok ⟨0, items⟩)
        = .ok (.createdIssue
            ("[Dotfiles Kaizen] ".data ++ domain.name ++ " - ".data ++ today)
            (issueBody domain nowStr research analysis)
            (ls ++ [domain.id])))
  ∧ (∀ n first rest,
      report_findings config domain today nowStr research analysis (.ok ⟨n + 1, first :: rest⟩)
        = .ok (.addedComment first.number (commentBody today research analysis))) := by
  constructor
  · intro gs ls items hgs hls
    have hfind : find_existing_issue ("[Dotfiles Kaizen] ".data ++ domain.name)
        (.ok ⟨0, items⟩) = .ok none := by
      simp [find_existing_issue]
    unfold report_findings
    rw [hfind, hgs, Option.getD_some, hls, Option.getD_some]
  · intro n first rest
    have hfind : find_existing_issue ("[Dotfiles Kaizen] ".data ++ domain.name)
        (.ok ⟨n + 1, first :: rest⟩) = .ok (some first) := by
      simp [find_existing_issue]
    unfold report_findings
    rw [hfind]

/-- Witness for C1: a zero-match search (issue created with configured
labels plus domain id) and a one-match search (comment on issue 42). -/
theorem c1_report_find_or_create_witness :
    report_findings sampleConfig sampleDomain "2026-10-12".data "now".data
        sampleResearch sampleAnalysis (.ok ⟨0, []⟩)
      = .ok (.createdIssue
          ("[Dotfiles Kaizen] ".data ++ sampleDomain.name ++ " - ".data ++ "2026-10-12".data)
          (issueBody sampleDomain "now".data sampleResearch sampleAnalysis)
          (["dotfiles-kaizen".data] ++ [sampleDomain.id]))
  ∧ report_findings sampleConfig sampleDomain "2026-10-12".data "now".data
        sampleResearch sampleAnalysis (.ok ⟨1, [⟨42⟩]⟩)
      = .ok (.addedComment 42 (commentBody "2026-10-12".data sampleResearch sampleAnalysis)) :=
  ⟨(c1_report_find_or_create sampleConfig sampleDomain "2026-10-12".data "now".data
      sampleResearch sampleAnalysis).1 ⟨some 10, some ["dotfiles-kaizen".data]⟩
      ["dotfiles-kaizen".data] [] rfl rfl,
   (c1_report_find_or_create sampleConfig sampleDomain "2026-10-12".data "now".data
      sampleResearch sampleAnalysis).2 0 ⟨42⟩ []⟩

lemma reportLabelsStep_frame (st : PyListStore) (r : Nat) (did : List Char)
    (h : r < st.cells.length) :
    (reportLabelsStep st r did).1.readRef r = st.readRef r
  ∧ (reportLabelsStep st r did).1.readRef (reportLabelsStep st r did).2
      = st.readRef r ++ [did]
  ∧ (reportLabelsStep st r did).1.cells.length = st.cells.length + 1 := by
  have hne : st.cells.length ≠ r := Nat.ne_of_gt h
  have hnew : (st.cells ++ [st.readRef r])[st.cells.length]? = some (st.readRef r) :=
    List.getElem?_concat_length _ _
  refine ⟨?_, ?_, ?_⟩
  · show (((st.cells ++ [st.readRef r]).set st.cells.length
        (((st.cells ++ [st.readRef r])[st.cells.length]?).getD [] ++ [did]))[r]?).getD []
      = (st.cells[r]?).getD []
    rw [List.getElem?_set_ne hne, List.getElem?_append_left h]
  · show (((st.cells ++ [st.readRef r]).set st.cells.length
        (((st.cells ++ [st.readRef r])[st.cells.length]?).getD [] ++ [did]))[st.cells.length]?).getD []
      = (st.cells[r]?).getD [] ++ [did]
    rw [hnew]
    rw [List.getElem?_set_self (by simp)]
    rfl
  · show ((st.cells ++ [st.readRef r]).set st.cells.length _).length = st.cells.length + 1
    simp

/-- C9: the report phase's label computation never mutates the configured
label list: under Python reference semantics the domain identifier is
appended to a freshly allocated copy, so the cell holding the configured
`issue_labels` list reads the same before and after a run, and a second run
observes the same configured list and produces the same labels. -/
theorem c9_report_labels_frame (st : PyListStore) (r : Nat) (did : List Char)
    (h : r < st.cells.length) :
    (reportLabelsStep st r did).1.readRef r = st.readRef r
  ∧ (reportLabelsStep st r did).1.readRef (reportLabelsStep st r did).2
      = st.readRef r ++ [did]
  ∧ (reportLabelsStep (reportLabelsStep st r did).1 r did).1.readRef r = st.readRef r
  ∧ (reportLabelsStep (reportLabelsStep st r did).1 r did).1.readRef
        (reportLabelsStep (reportLabelsStep st r did).1 r did).2
      = st.readRef r ++ [did] := by
  obtain ⟨h1, h2, h3⟩ := reportLabelsStep_frame st r did h
  have hr2 : r < (reportLabelsStep st r did).1.cells.length := by
    rw [h3]
    omega
  obtain ⟨h1', h2', _⟩ := reportLabelsStep_frame (reportLabelsStep st r did).1 r did hr2
  exact ⟨h1, h2, by rw [h1', h1], by rw [h2', h1]⟩

/-- Witness for C9 at a concrete one-cell store. -/
theorem c9_report_labels_frame_witness :
    (reportLabelsStep ⟨[["dotfiles-kaizen".data]]⟩ 0 "docs-skill".data).1.readRef 0
      = PyListStore.readRef ⟨[["dotfiles-kaizen".data]]⟩ 0
  ∧ (reportLabelsStep ⟨[["dotfiles-kaizen".data]]⟩ 0 "docs-skill".data).1.readRef
        (reportLabelsStep ⟨[["dotfiles-kaizen".data]]⟩ 0 "docs-skill".data).2
      = PyListStore.readRef ⟨[["dotfiles-kaizen".data]]⟩ 0 ++ ["docs-skill".data] :=
  ⟨(c9_report_labels_frame ⟨[["dotfiles-kaizen".data]]⟩ 0 "docs-skill".data (by decide)).1,
   (c9_report_labels_frame ⟨[["dotfiles-kaizen".data]]⟩ 0 "docs-skill".data (by decide)).2.1⟩
